import Mathlib

/-!
Verification of the client-side processing workflow in `src/App.tsx`
(Jawahar Photo Editor).

The embedding models the `App` component's React state hooks as a record
`AppState`, and the three intent handlers (`handleImageUpload`,
`setBackgroundOption`, `handleProcessImage`) as state transformers.
`handleProcessImage` has two suspension points (the `fileToBase64` read and
the `processImage` remote call); it is therefore split into a synchronous
prefix (`startProcess`, everything up to the first `await`, which captures
the closure values `uploadedFile` and `backgroundOption`) and a completion
(`applyCompletion`, the writes performed when the awaited promises settle,
applied to whatever the state is at that moment). An event trace semantics
(`runEvents`) lets intents interleave with suspended attempts exactly as the
browser event loop allows.

Resource accounting: `URL.createObjectURL` is modelled as allocating a fresh
handle from a counter; `App.tsx` contains no call to `URL.revokeObjectURL`,
so no transition ever adds to `releasedHandles`. Calls into the encoder
(`fileToBase64`) and the remote transformer (`processImage`) are counted /
recorded so that "no remote call occurs" is a statement about the model.
-/

namespace PhotoEditor

/-- Modelled from the spec: the `BackgroundOption` enum lives in
`src/types.ts`, which is not included under `src/`; per the spec (section 3)
it has exactly the variants `ORIGINAL` and `WHITE`, default `WHITE`. -/
inductive BackgroundOption where
  | ORIGINAL
  | WHITE
  deriving DecidableEq, Repr

/-- An uploaded file, opaque to the workflow controller. -/
structure File where
  name : String
  deriving DecidableEq, Repr

/-- A JavaScript error value as observed by the `catch (err)` handler:
`err.message` may be absent (`none`) or any string. -/
structure JsError where
  message : Option String
  deriving DecidableEq, Repr

/-- The value the `fileToBase64` promise resolves with. -/
structure EncodedPayload where
  base64 : String
  mimeType : String
  deriving DecidableEq, Repr

/-- The React state hooks of the `App` component (src/App.tsx lines 183-188). -/
structure AppState where
  uploadedFile : Option File
  previewUrl : Option String
  processedImageUrl : Option String
  backgroundOption : BackgroundOption
  isLoading : Bool
  error : Option String
  deriving DecidableEq, Repr

/-- A `triggerProcess` attempt suspended at its first `await`; it has captured
the closure values `uploadedFile` and `backgroundOption`. -/
structure PendingAttempt where
  file : File
  option : BackgroundOption
  deriving DecidableEq, Repr

/-- The full machine: component state, suspended attempts, object-URL
allocation accounting, and call accounting for the two collaborators. -/
structure MachineState where
  app : AppState
  pending : List PendingAttempt
  nextHandle : Nat
  allocatedHandles : List Nat
  releasedHandles : List Nat
  encoderCalls : Nat
  remoteCalls : List (String × String × String)
  deriving Repr

/-- `URL.createObjectURL` returns a fresh blob URL; handle `h` renders as a
distinct string per allocation. -/
def objectUrlFor (h : Nat) : String := "blob:" ++ toString h

/-- The validation message of src/App.tsx line 200. -/
def validationMessage : String := "Please upload an image first."

/-- The generic fallback of src/App.tsx line 221. -/
def genericErrorMessage : String := "An unexpected error occurred."

/-- The display string computed by the catch handler, src/App.tsx line 221:
`err.message || "An unexpected error occurred."`. A missing message and the
empty string are both falsy in JavaScript, so both fall back. -/
def errorDisplayMessage (e : JsError) : String :=
  match e.message with
  | some m => if m = "" then genericErrorMessage else m
  | none => genericErrorMessage

/-- The prompt built from the selected option, src/App.tsx lines 211-213. -/
def buildInstruction (o : BackgroundOption) : String :=
  match o with
  | .WHITE => "Enhance this photo to be a clean, modern, professional, realistic headshot. Replace the background with a clean, plain white background with natural, soft studio lighting."
  | .ORIGINAL => "Enhance this photo to be a clean, modern, professional, realistic headshot with great natural lighting. Keep the original background but make it look more polished, slightly blurred, and high-quality, as if taken by a professional photographer."

/-- Initial hook values, src/App.tsx lines 183-188. -/
def initApp : AppState :=
  { uploadedFile := none
    previewUrl := none
    processedImageUrl := none
    backgroundOption := .WHITE
    isLoading := false
    error := none }

/-- Fresh machine at mount time. -/
def initMachine : MachineState :=
  { app := initApp
    pending := []
    nextHandle := 0
    allocatedHandles := []
    releasedHandles := []
    encoderCalls := 0
    remoteCalls := [] }

/-- `handleImageUpload` (src/App.tsx lines 190-196): store the file, clear
the result and the error, allocate a fresh object URL and store it as the
preview. No `URL.revokeObjectURL` appears in the source, so the previous
handle is not released. -/
def handleImageUpload (mc : MachineState) (f : File) : MachineState :=
  { mc with
    app := { mc.app with
      uploadedFile := some f
      processedImageUrl := none
      error := none
      previewUrl := some (objectUrlFor mc.nextHandle) }
    nextHandle := mc.nextHandle + 1
    allocatedHandles := mc.allocatedHandles ++ [mc.nextHandle] }

/-- `setBackgroundOption` via `onOptionChange` (src/App.tsx lines 186, 238):
a bare state setter. -/
def selectBackgroundOption (mc : MachineState) (o : BackgroundOption) : MachineState :=
  { mc with app := { mc.app with backgroundOption := o } }

/-- The synchronous prefix of `handleProcessImage` (src/App.tsx lines
198-207): with no file, set the validation error and return; otherwise set
`isLoading`, clear error and result, and suspend an attempt that has
captured the current file and option. -/
def startProcess (mc : MachineState) : MachineState :=
  match mc.app.uploadedFile with
  | none => { mc with app := { mc.app with error := some validationMessage } }
  | some f =>
    { mc with
      app := { mc.app with isLoading := true, error := none, processedImageUrl := none }
      pending := mc.pending ++ [{ file := f, option := mc.app.backgroundOption }] }

/-- The rest of `handleProcessImage` (src/App.tsx lines 208-224), run when
the suspended awaits settle, against the machine state of that later moment.
`enc` is the outcome of `fileToBase64`, `remote` the outcome of
`processImage`. The writes are unconditional: the source has no generation
check, so they land on whatever the current state is. -/
def applyCompletion (mc : MachineState) (a : PendingAttempt)
    (enc : Except JsError EncodedPayload) (remote : Except JsError String) :
    MachineState :=
  match enc with
  | .error e =>
    { mc with
      app := { mc.app with error := some (errorDisplayMessage e), isLoading := false }
      encoderCalls := mc.encoderCalls + 1 }
  | .ok p =>
    match remote with
    | .error e =>
      { mc with
        app := { mc.app with error := some (errorDisplayMessage e), isLoading := false }
        encoderCalls := mc.encoderCalls + 1
        remoteCalls := mc.remoteCalls ++ [(p.base64, p.mimeType, buildInstruction a.option)] }
    | .ok res =>
      { mc with
        app := { mc.app with
          processedImageUrl := some ("data:image/png;base64," ++ res)
          isLoading := false }
        encoderCalls := mc.encoderCalls + 1
        remoteCalls := mc.remoteCalls ++ [(p.base64, p.mimeType, buildInstruction a.option)] }

/-- Resolve the oldest suspended attempt with the given outcomes; a no-op if
nothing is in flight. -/
def resolveFirst (mc : MachineState)
    (enc : Except JsError EncodedPayload) (remote : Except JsError String) :
    MachineState :=
  match mc.pending with
  | [] => mc
  | a :: rest => applyCompletion { mc with pending := rest } a enc remote

/-- One uninterrupted `triggerProcess` attempt: start it and let it settle
with the given collaborator outcomes before anything else happens. -/
def runAttempt (mc : MachineState)
    (enc : Except JsError EncodedPayload) (remote : Except JsError String) :
    MachineState :=
  resolveFirst (startProcess mc) enc remote

/-- `canProcess` (src/App.tsx line 227): `uploadedFile && !isLoading` as a
truth value. -/
def canProcess (s : AppState) : Bool := s.uploadedFile.isSome && !s.isLoading

/-- Which failure, if any, an attempt with these outcomes ends in: an encode
error short-circuits; otherwise a remote error; otherwise none. -/
def attemptFailure (enc : Except JsError EncodedPayload)
    (remote : Except JsError String) : Option JsError :=
  match enc with
  | .error e => some e
  | .ok _ =>
    match remote with
    | .error e => some e
    | .ok _ => none

/-- Environment events: the three user intents plus the settling of the
oldest suspended attempt. -/
inductive Event where
  | upload (f : File)
  | select (o : BackgroundOption)
  | trigger
  | resolve (enc : Except JsError EncodedPayload) (remote : Except JsError String)

/-- Apply one event. -/
def stepEvent (mc : MachineState) : Event → MachineState
  | .upload f => handleImageUpload mc f
  | .select o => selectBackgroundOption mc o
  | .trigger => startProcess mc
  | .resolve enc remote => resolveFirst mc enc remote

/-- Apply a trace of events in order. -/
def runEvents (mc : MachineState) : List Event → MachineState
  | [] => mc
  | e :: es => runEvents (stepEvent mc e) es

/-- Concrete files for trace evaluations. -/
def fileA : File := { name := "A.jpg" }

def fileB : File := { name := "B.png" }

/-- A machine that has just received one upload. -/
def mcWithFile : MachineState := handleImageUpload initMachine fileA

/-- The error display string is never empty. -/
theorem errorDisplayMessage_ne_empty (e : JsError) : errorDisplayMessage e ≠ "" := by
  unfold errorDisplayMessage genericErrorMessage
  match e.message with
  | none => simp
  | some m =>
    by_cases h : m = "" <;> simp [h]

/-- No transition of the machine ever releases an object URL: the source
contains no call to `URL.revokeObjectURL`. -/
theorem runEvents_releasedHandles (mc : MachineState) (evs : List Event) :
    (runEvents mc evs).releasedHandles = mc.releasedHandles := by
  induction evs generalizing mc with
  | nil => rfl
  | cons e es ih =>
    rw [runEvents, ih]
    cases e with
    | upload f => rfl
    | select o => rfl
    | trigger =>
      unfold stepEvent startProcess
      cases mc.app.uploadedFile <;> rfl
    | resolve enc remote =>
      unfold stepEvent resolveFirst
      cases mc.pending with
      | nil => rfl
      | cons a rest =>
        unfold applyCompletion
        cases enc with
        | error e => rfl
        | ok p => cases remote <;> rfl

/-- Claim C10: the instruction builder is a pure total function of the
background option alone (it is a Lean function of `BackgroundOption`);
`WHITE` always yields the fixed instruction demanding replacement with a
clean plain white background under natural soft studio lighting, `ORIGINAL`
always yields the fixed instruction demanding the original background be
kept but polished and slightly blurred, and the two outputs are distinct. -/
theorem c10_buildInstruction_fixed_and_distinct :
    buildInstruction .WHITE = "Enhance this photo to be a clean, modern, professional, realistic headshot. Replace the background with a clean, plain white background with natural, soft studio lighting."
    ∧ buildInstruction .ORIGINAL = "Enhance this photo to be a clean, modern, professional, realistic headshot with great natural lighting. Keep the original background but make it look more polished, slightly blurred, and high-quality, as if taken by a professional photographer."
    ∧ buildInstruction .WHITE ≠ buildInstruction .ORIGINAL := by
  refine ⟨rfl, rfl, ?_⟩
  decide

/-- Claim C7: in every component state, `canProcess` is true exactly when a
file is uploaded and `isLoading` is false; in particular it is false
whenever an attempt is in flight. -/
theorem c7_canProcess_iff (s : AppState) :
    (canProcess s = true ↔ (s.uploadedFile ≠ none ∧ s.isLoading = false))
    ∧ (s.isLoading = true → canProcess s = false) := by
  unfold canProcess
  cases h : s.uploadedFile <;> cases h2 : s.isLoading <;> simp

/-- Closed instance of `c7_canProcess_iff` at the initial state. -/
theorem c7_canProcess_iff_witness :
    (canProcess initApp = true ↔ (initApp.uploadedFile ≠ none ∧ initApp.isLoading = false))
    ∧ (initApp.isLoading = true → canProcess initApp = false) :=
  c7_canProcess_iff initApp

/-- Claim C8: from every machine state, uploading a file replaces the
uploaded file, immediately sets the preview to a fresh object URL, clears
the result and the error, and triggers no processing: `isLoading`, the
selected option, the suspended attempts and both collaborator call records
are untouched, so no network call is involved. -/
theorem c8_upload_resets (mc : MachineState) (f : File) :
    (handleImageUpload mc f).app.uploadedFile = some f
    ∧ (handleImageUpload mc f).app.previewUrl = some (objectUrlFor mc.nextHandle)
    ∧ (handleImageUpload mc f).app.processedImageUrl = none
    ∧ (handleImageUpload mc f).app.error = none
    ∧ (handleImageUpload mc f).app.isLoading = mc.app.isLoading
    ∧ (handleImageUpload mc f).app.backgroundOption = mc.app.backgroundOption
    ∧ (handleImageUpload mc f).pending = mc.pending
    ∧ (handleImageUpload mc f).encoderCalls = mc.encoderCalls
    ∧ (handleImageUpload mc f).remoteCalls = mc.remoteCalls :=
  ⟨rfl, rfl, rfl, rfl, rfl, rfl, rfl, rfl, rfl⟩

/-- Closed instance of `c8_upload_resets` at the initial machine. -/
theorem c8_upload_resets_witness :
    (handleImageUpload initMachine fileA).app.uploadedFile = some fileA
    ∧ (handleImageUpload initMachine fileA).app.previewUrl = some (objectUrlFor initMachine.nextHandle)
    ∧ (handleImageUpload initMachine fileA).app.processedImageUrl = none
    ∧ (handleImageUpload initMachine fileA).app.error = none
    ∧ (handleImageUpload initMachine fileA).app.isLoading = initMachine.app.isLoading
    ∧ (handleImageUpload initMachine fileA).app.backgroundOption = initMachine.app.backgroundOption
    ∧ (handleImageUpload initMachine fileA).pending = initMachine.pending
    ∧ (handleImageUpload initMachine fileA).encoderCalls = initMachine.encoderCalls
    ∧ (handleImageUpload initMachine fileA).remoteCalls = initMachine.remoteCalls :=
  c8_upload_resets initMachine fileA

/-- Claim C9: selecting a background option assigns `backgroundOption` and
changes nothing else: file, preview, result, error, loading flag, suspended
attempts, handles and call records are all unchanged. -/
theorem c9_selectOption_frame (mc : MachineState) (o : BackgroundOption) :
    (selectBackgroundOption mc o).app.backgroundOption = o
    ∧ (selectBackgroundOption mc o).app.uploadedFile = mc.app.uploadedFile
    ∧ (selectBackgroundOption mc o).app.previewUrl = mc.app.previewUrl
    ∧ (selectBackgroundOption mc o).app.processedImageUrl = mc.app.processedImageUrl
    ∧ (selectBackgroundOption mc o).app.isLoading = mc.app.isLoading
    ∧ (selectBackgroundOption mc o).app.error = mc.app.error
    ∧ (selectBackgroundOption mc o).pending = mc.pending
    ∧ (selectBackgroundOption mc o).nextHandle = mc.nextHandle
    ∧ (selectBackgroundOption mc o).allocatedHandles = mc.allocatedHandles
    ∧ (selectBackgroundOption mc o).releasedHandles = mc.releasedHandles
    ∧ (selectBackgroundOption mc o).encoderCalls = mc.encoderCalls
    ∧ (selectBackgroundOption mc o).remoteCalls = mc.remoteCalls :=
  ⟨rfl, rfl, rfl, rfl, rfl, rfl, rfl, rfl, rfl, rfl, rfl, rfl⟩

/-- Closed instance of `c9_selectOption_frame` at a concrete state. -/
theorem c9_selectOption_frame_witness :
    (selectBackgroundOption mcWithFile .ORIGINAL).app.backgroundOption = .ORIGINAL
    ∧ (selectBackgroundOption mcWithFile .ORIGINAL).app.uploadedFile = mcWithFile.app.uploadedFile
    ∧ (selectBackgroundOption mcWithFile .ORIGINAL).app.previewUrl = mcWithFile.app.previewUrl
    ∧ (selectBackgroundOption mcWithFile .ORIGINAL).app.processedImageUrl = mcWithFile.app.processedImageUrl
    ∧ (selectBackgroundOption mcWithFile .ORIGINAL).app.isLoading = mcWithFile.app.isLoading
    ∧ (selectBackgroundOption mcWithFile .ORIGINAL).app.error = mcWithFile.app.error
    ∧ (selectBackgroundOption mcWithFile .ORIGINAL).pending = mcWithFile.pending
    ∧ (selectBackgroundOption mcWithFile .ORIGINAL).nextHandle = mcWithFile.nextHandle
    ∧ (selectBackgroundOption mcWithFile .ORIGINAL).allocatedHandles = mcWithFile.allocatedHandles
    ∧ (selectBackgroundOption mcWithFile .ORIGINAL).releasedHandles = mcWithFile.releasedHandles
    ∧ (selectBackgroundOption mcWithFile .ORIGINAL).encoderCalls = mcWithFile.encoderCalls
    ∧ (selectBackgroundOption mcWithFile .ORIGINAL).remoteCalls = mcWithFile.remoteCalls :=
  c9_selectOption_frame mcWithFile .ORIGINAL

/-- Claim C3: invoking `triggerProcess` with no uploaded file fails
immediately: the error becomes exactly the validation message, `isLoading`
stays false, no attempt is suspended, and neither the encoder nor the remote
transformer is invoked (both call records are unchanged). -/
theorem c3_trigger_without_file (mc : MachineState)
    (hfile : mc.app.uploadedFile = none) (hload : mc.app.isLoading = false) :
    (startProcess mc).app.error = some validationMessage
    ∧ (startProcess mc).app.isLoading = false
    ∧ (startProcess mc).pending = mc.pending
    ∧ (startProcess mc).encoderCalls = mc.encoderCalls
    ∧ (startProcess mc).remoteCalls = mc.remoteCalls := by
  unfold startProcess
  rw [hfile]
  exact ⟨rfl, hload, rfl, rfl, rfl⟩

/-- Closed instance of `c3_trigger_without_file` at the initial machine. -/
theorem c3_trigger_without_file_witness :
    initMachine.app.uploadedFile = none
    ∧ initMachine.app.isLoading = false
    ∧ ((startProcess initMachine).app.error = some validationMessage
      ∧ (startProcess initMachine).app.isLoading = false
      ∧ (startProcess initMachine).pending = initMachine.pending
      ∧ (startProcess initMachine).encoderCalls = initMachine.encoderCalls
      ∧ (startProcess initMachine).remoteCalls = initMachine.remoteCalls) :=
  ⟨rfl, rfl, c3_trigger_without_file initMachine rfl rfl⟩

/-- A result data URL is never the empty string. -/
theorem dataUrl_ne_empty (s : String) : ("data:image/png;base64," ++ s) ≠ "" := by
  intro h
  have hl : ("data:image/png;base64," ++ s).length = (0 : Nat) := by rw [h]; rfl
  rw [String.length_append] at hl
  have hp : "data:image/png;base64,".length = (22 : Nat) := by decide
  rw [hp] at hl
  omega

/-- Normal form of an uninterrupted attempt started from a state with a file
and nothing already in flight. -/
theorem runAttempt_eq (mc : MachineState) (f : File)
    (hfile : mc.app.uploadedFile = some f) (hpend : mc.pending = [])
    (enc : Except JsError EncodedPayload) (remote : Except JsError String) :
    runAttempt mc enc remote =
      applyCompletion
        { mc with
          app := { mc.app with isLoading := true, error := none, processedImageUrl := none }
          pending := [] }
        { file := f, option := mc.app.backgroundOption } enc remote := by
  unfold runAttempt startProcess
  rw [hfile]
  unfold resolveFirst
  simp [hpend]

/-- Claim C2: for every state holding an uploaded file (any selected option),
after an uninterrupted `triggerProcess` attempt completes, exactly one of the
result and the error is a non-empty string: success leaves a non-empty
result and no error, failure leaves no result and a non-empty error. -/
theorem c2_exactly_one_outcome (mc : MachineState) (f : File)
    (hfile : mc.app.uploadedFile = some f) (hpend : mc.pending = [])
    (enc : Except JsError EncodedPayload) (remote : Except JsError String) :
    ((∃ r, (runAttempt mc enc remote).app.processedImageUrl = some r ∧ r ≠ "")
      ∧ (runAttempt mc enc remote).app.error = none)
    ∨ ((runAttempt mc enc remote).app.processedImageUrl = none
      ∧ ∃ m, (runAttempt mc enc remote).app.error = some m ∧ m ≠ "") := by
  rw [runAttempt_eq mc f hfile hpend]
  cases enc with
  | error e =>
    exact Or.inr ⟨rfl, errorDisplayMessage e, rfl, errorDisplayMessage_ne_empty e⟩
  | ok p =>
    cases remote with
    | error e =>
      exact Or.inr ⟨rfl, errorDisplayMessage e, rfl, errorDisplayMessage_ne_empty e⟩
    | ok res =>
      exact Or.inl ⟨⟨"data:image/png;base64," ++ res, rfl, dataUrl_ne_empty res⟩, rfl⟩

/-- Closed instance of `c2_exactly_one_outcome`: one upload, then a
successful attempt. -/
theorem c2_exactly_one_outcome_witness :
    mcWithFile.app.uploadedFile = some fileA
    ∧ mcWithFile.pending = []
    ∧ (((∃ r, (runAttempt mcWithFile (.ok { base64 := "QUJD", mimeType := "image/jpeg" }) (.ok "Zm9v")).app.processedImageUrl = some r ∧ r ≠ "")
        ∧ (runAttempt mcWithFile (.ok { base64 := "QUJD", mimeType := "image/jpeg" }) (.ok "Zm9v")).app.error = none)
      ∨ ((runAttempt mcWithFile (.ok { base64 := "QUJD", mimeType := "image/jpeg" }) (.ok "Zm9v")).app.processedImageUrl = none
        ∧ ∃ m, (runAttempt mcWithFile (.ok { base64 := "QUJD", mimeType := "image/jpeg" }) (.ok "Zm9v")).app.error = some m ∧ m ≠ "")) :=
  ⟨rfl, rfl, c2_exactly_one_outcome mcWithFile fileA rfl rfl _ _⟩

/-- Claim C4: whenever an uninterrupted attempt fails — at the encode step or
at the remote call — the error is set to the failure's display message (its
own message when present and non-empty, otherwise the generic fallback),
`isLoading` returns to false, and the result stays empty. -/
theorem c4_failure_sets_error (mc : MachineState) (f : File)
    (hfile : mc.app.uploadedFile = some f) (hpend : mc.pending = [])
    (enc : Except JsError EncodedPayload) (remote : Except JsError String)
    (e : JsError) (hfail : attemptFailure enc remote = some e) :
    (runAttempt mc enc remote).app.error = some (errorDisplayMessage e)
    ∧ (runAttempt mc enc remote).app.isLoading = false
    ∧ (runAttempt mc enc remote).app.processedImageUrl = none
    ∧ (∀ m, e.message = some m → m ≠ "" → (runAttempt mc enc remote).app.error = some m)
    ∧ (e.message = none → (runAttempt mc enc remote).app.error = some genericErrorMessage) := by
  rw [runAttempt_eq mc f hfile hpend]
  have display : ∀ m, e.message = some m → m ≠ "" → errorDisplayMessage e = m := by
    intro m hm hne
    unfold errorDisplayMessage
    rw [hm]
    simp [hne]
  have fallback : e.message = none → errorDisplayMessage e = genericErrorMessage := by
    intro hm
    unfold errorDisplayMessage
    rw [hm]
  cases enc with
  | error e' =>
    unfold attemptFailure at hfail
    cases hfail
    refine ⟨rfl, rfl, rfl, ?_, ?_⟩
    · intro m hm hne
      rw [← display m hm hne]
      rfl
    · intro hm
      rw [← fallback hm]
      rfl
  | ok p =>
    cases remote with
    | error e' =>
      unfold attemptFailure at hfail
      cases hfail
      refine ⟨rfl, rfl, rfl, ?_, ?_⟩
      · intro m hm hne
        rw [← display m hm hne]
        rfl
      · intro hm
        rw [← fallback hm]
        rfl
    | ok res =>
      unfold attemptFailure at hfail
      cases hfail

/-- Closed instance of `c4_failure_sets_error`: the remote call rejects with
message "quota exceeded" after an upload. -/
theorem c4_failure_sets_error_witness :
    mcWithFile.app.uploadedFile = some fileA
    ∧ mcWithFile.pending = []
    ∧ attemptFailure (Except.ok { base64 := "QUJD", mimeType := "image/jpeg" }) (Except.error { message := some "quota exceeded" }) = some { message := some "quota exceeded" }
    ∧ ((runAttempt mcWithFile (.ok { base64 := "QUJD", mimeType := "image/jpeg" }) (.error { message := some "quota exceeded" })).app.error = some (errorDisplayMessage { message := some "quota exceeded" })
      ∧ (runAttempt mcWithFile (.ok { base64 := "QUJD", mimeType := "image/jpeg" }) (.error { message := some "quota exceeded" })).app.isLoading = false
      ∧ (runAttempt mcWithFile (.ok { base64 := "QUJD", mimeType := "image/jpeg" }) (.error { message := some "quota exceeded" })).app.processedImageUrl = none
      ∧ (∀ m, (JsError.mk (some "quota exceeded")).message = some m → m ≠ "" → (runAttempt mcWithFile (.ok { base64 := "QUJD", mimeType := "image/jpeg" }) (.error { message := some "quota exceeded" })).app.error = some m)
      ∧ ((JsError.mk (some "quota exceeded")).message = none → (runAttempt mcWithFile (.ok { base64 := "QUJD", mimeType := "image/jpeg" }) (.error { message := some "quota exceeded" })).app.error = some genericErrorMessage)) :=
  ⟨rfl, rfl, rfl,
    c4_failure_sets_error mcWithFile fileA rfl rfl _ _ { message := some "quota exceeded" } rfl⟩

/-- Claim C5: whenever the remote call of an uninterrupted attempt succeeds
with payload `res`, the result becomes the data URL with the fixed PNG media
type prefixed to `res` — whatever the uploaded file's own mime type was —
`isLoading` returns to false, and the error stays empty. -/
theorem c5_success_sets_result (mc : MachineState) (f : File)
    (hfile : mc.app.uploadedFile = some f) (hpend : mc.pending = [])
    (p : EncodedPayload) (res : String) :
    (runAttempt mc (.ok p) (.ok res)).app.processedImageUrl
      = some ("data:image/png;base64," ++ res)
    ∧ (runAttempt mc (.ok p) (.ok res)).app.isLoading = false
    ∧ (runAttempt mc (.ok p) (.ok res)).app.error = none := by
  rw [runAttempt_eq mc f hfile hpend]
  exact ⟨rfl, rfl, rfl⟩

/-- Closed instance of `c5_success_sets_result`: a JPEG upload whose attempt
succeeds with payload "Zm9v" yields data:image/png;base64,Zm9v. -/
theorem c5_success_sets_result_witness :
    mcWithFile.app.uploadedFile = some fileA
    ∧ mcWithFile.pending = []
    ∧ ((runAttempt mcWithFile (.ok { base64 := "QUJD", mimeType := "image/jpeg" }) (.ok "Zm9v")).app.processedImageUrl = some ("data:image/png;base64," ++ "Zm9v")
      ∧ (runAttempt mcWithFile (.ok { base64 := "QUJD", mimeType := "image/jpeg" }) (.ok "Zm9v")).app.isLoading = false
      ∧ (runAttempt mcWithFile (.ok { base64 := "QUJD", mimeType := "image/jpeg" }) (.ok "Zm9v")).app.error = none) :=
  ⟨rfl, rfl, c5_success_sets_result mcWithFile fileA rfl rfl _ "Zm9v"⟩

/-- The interleaving of E2E scenario D: upload file A, trigger processing
(the attempt suspends), upload file B while it is in flight, then the stale
attempt resolves successfully with payload "Zm9v". -/
def staleResolutionTrace : List Event :=
  [.upload fileA, .trigger, .upload fileB,
   .resolve (.ok { base64 := "QUJD", mimeType := "image/jpeg" }) (.ok "Zm9v")]

/-- Claim C1 fails on the code: `handleProcessImage` has no generation
check, so when the attempt started for file A resolves after file B's upload
already reset the state, its completion writes land anyway — the final state
has file B uploaded (with B's preview) yet carries A's lineage result
`data:image/png;base64,Zm9v` in `processedImageUrl`, which the claim says
must have been discarded. -/
theorem c1_stale_completion_overwrites :
    (runEvents initMachine staleResolutionTrace).app.uploadedFile = some fileB
    ∧ (runEvents initMachine staleResolutionTrace).app.previewUrl
        = some (objectUrlFor 1)
    ∧ (runEvents initMachine staleResolutionTrace).app.processedImageUrl
        = some "data:image/png;base64,Zm9v"
    ∧ (runEvents initMachine staleResolutionTrace).pending = [] := by
  refine ⟨rfl, rfl, ?_, rfl⟩
  rfl

/-- Claim C6 fails on the code: `App.tsx` never calls
`URL.revokeObjectURL`, so after a second upload the first preview handle
(handle 0) has been superseded by handle 1 yet remains allocated and is
never released. (`runEvents_releasedHandles` shows no trace whatsoever
releases a handle.) -/
theorem c6_preview_handle_never_released :
    (runEvents initMachine [.upload fileA, .upload fileB]).app.previewUrl
      = some (objectUrlFor 1)
    ∧ (runEvents initMachine [.upload fileA, .upload fileB]).allocatedHandles = [0, 1]
    ∧ (runEvents initMachine [.upload fileA, .upload fileB]).releasedHandles = [] :=
  ⟨rfl, rfl, rfl⟩

end PhotoEditor
